import Mathlib

/-!
Verification of the button-group widget subsystem of Streamlit (the
Option Normalizer, the Value Codec `FeedbackSerde`, and the Element
Builder for `st.feedback` / `st.pills` / `_internal_button_group`).

The Python implementation (`streamlit/elements/widgets/button_group.py`)
is embedded shallowly: every definition below is modelled from the
specification of that module, with the concrete behavior pinned by the
repository's unit tests (`src/lib/tests/streamlit/elements/button_group_test.py`).
Machine errors are made explicit: `StreamlitAPIException` and `IndexError`
are the two constructors of `BGError`, and every fallible operation
returns `Except BGError _`.
-/

deriving instance DecidableEq for Except

/-- Modelled from the spec: one selectable entry of a button group (spec §3
"Option"): display content, an icon and a "selected" variant icon, as in the
`ButtonGroup` proto option used by `button_group.py` (missing from src). -/
structure BGOption where
  content : String
  content_icon : String
  selected_content_icon : String
deriving Repr, DecidableEq

/-- Modelled from the spec: the two kinds of errors of the error taxonomy
(spec §7): a `StreamlitAPIException` carrying a human-readable message
(configuration and domain validation errors), and a low-level `IndexError`
carrying the offending position (out-of-range propagation, not wrapped). -/
inductive BGError where
  | streamlitAPIException (msg : String)
  | indexError (idx : Nat)
deriving Repr, DecidableEq

/-- Modelled from the spec: the icon list of the "thumbs" fixed-vocabulary
category, thumbs-up first (`_THUMB_ICONS` of `button_group.py`, missing from
src; values pinned by `test_proto_population`). -/
def _THUMB_ICONS : List String :=
  [":material/thumb_up:", ":material/thumb_down:"]

/-- Modelled from the spec: the icon list of the "faces" category, saddest
first (`_FACES_ICONS` of `button_group.py`, missing from src; order pinned by
`TestGetMappedOptions.test_faces`). -/
def _FACES_ICONS : List String :=
  [":material/sentiment_sad:", ":material/sentiment_dissatisfied:",
   ":material/sentiment_neutral:", ":material/sentiment_satisfied:",
   ":material/sentiment_very_satisfied:"]

/-- Modelled from the spec: the icon of an unselected star (`_STAR_ICON` of
`button_group.py`, missing from src). -/
def _STAR_ICON : String := ":material/star:"

/-- Modelled from the spec: the icon of a selected star
(`_SELECTED_STAR_ICON` of `button_group.py`, missing from src; the tests only
require it to be the selected variant, materially distinct per selection
state, spec §3). -/
def _SELECTED_STAR_ICON : String := ":material/star_filled:"

/-- Modelled from the spec: `get_mapped_options` of `button_group.py`
(missing from src). Translates a fixed-vocabulary category name into the
concrete ordered option list and its Option Index Mapping (spec §3):
"thumbs" displays thumbs-up first but its semantic scale has thumbs-down at
category 0, so the mapping is the reversed range; "faces" and "stars" use
the identity mapping on 0..4 (pinned by `TestGetMappedOptions`). -/
def get_mapped_options (feedback_option : String) : List BGOption × List Nat :=
  if feedback_option = "thumbs" then
    (_THUMB_ICONS.map (fun icon =>
        { content := "", content_icon := icon, selected_content_icon := "" }),
     (List.range _THUMB_ICONS.length).reverse)
  else if feedback_option = "faces" then
    (_FACES_ICONS.map (fun icon =>
        { content := "", content_icon := icon, selected_content_icon := "" }),
     List.range _FACES_ICONS.length)
  else if feedback_option = "stars" then
    ((List.range 5).map (fun _ =>
        { content := "", content_icon := _STAR_ICON,
          selected_content_icon := _SELECTED_STAR_ICON }),
     List.range 5)
  else ([], [])

/-- Modelled from the spec: the position of the first occurrence of `v` in
`l`, if any (Python's `list.index`, as used by the Serde's serialization to
look up a semantic category's position in the index mapping, spec §4.3). -/
def index_of {α : Type} [DecidableEq α] (l : List α) (v : α) : Option Nat :=
  match l with
  | [] => Option.none
  | x :: rest =>
    if x = v then Option.some 0
    else Option.map (fun i => i + 1) (index_of rest v)

/-- Modelled from the spec: the domain validation error message raised when a
value to serialize is not present in the option/index mapping (the "option
does not exist" kind, spec §4.3 and §7). -/
def option_does_not_exist_msg : String :=
  "The given option does not exist in the options list."

/-- Modelled from the spec: `FeedbackSerde` of `button_group.py` (missing
from src): the Value Codec of a fixed-vocabulary, index-mapped widget,
holding the widget instance's fixed Option Index Mapping (spec §4.3). -/
structure FeedbackSerde where
  option_indices : List Nat
deriving Repr, DecidableEq

/-- Modelled from the spec: `FeedbackSerde.serialize` (spec §4.3): looks up
the semantic category's position in the index mapping and returns a
one-element wire list; fails with a domain error (`StreamlitAPIException`,
the "option does not exist" kind) if the category is absent from the
mapping; an absent value serializes to the empty wire list. -/
def FeedbackSerde.serialize (serde : FeedbackSerde) (value : Option Nat) :
    Except BGError (List Nat) :=
  match value with
  | Option.none => .ok []
  | Option.some v =>
    match index_of serde.option_indices v with
    | Option.some i => .ok [i]
    | Option.none => .error (.streamlitAPIException option_does_not_exist_msg)

/-- Modelled from the spec: the per-position lookup of deserialization (spec
§4.3): each wire position is mapped back through the index mapping; a
position beyond the mapping's bounds raises a low-level `IndexError`,
deliberately not caught or translated. -/
def lookup_indices (mapping : List Nat) (positions : List Nat) :
    Except BGError (List Nat) :=
  match positions with
  | [] => .ok []
  | p :: rest =>
    match mapping.get? p with
    | Option.some v =>
      match lookup_indices mapping rest with
      | .ok vs => .ok (v :: vs)
      | .error e => .error e
    | Option.none => .error (.indexError p)

/-- Modelled from the spec: `FeedbackSerde.deserialize` (spec §4.3): takes a
wire-encoded list of positions, maps each back through the index mapping and
returns the semantic category for single-select usage (the first element, or
none when the wire list is empty). -/
def FeedbackSerde.deserialize (serde : FeedbackSerde) (ui_value : List Nat)
    (widget_id : String) : Except BGError (Option Nat) :=
  match lookup_indices serde.option_indices ui_value with
  | .ok vals => .ok vals.head?
  | .error e => .error e

/-- Modelled from the spec: the closed set of tagged input shapes accepted by
the Option Normalizer (spec §4.1, §9): an ordered sequence (also covering
unordered collections and exhausted lazy producers, already materialized in
order), a tabular structure given as its named columns, and a scalar. A
table's column-name index, when passed as the options, arrives as a
`sequence` of the names. -/
inductive OptionsInput (α : Type) where
  | sequence (items : List α)
  | dataframe (columns : List (String × List α))
  | scalar (value : α)

/-- Modelled from the spec: `convert_anything_to_list`, the Option
Normalizer's conversion to an ordered indexable list (spec §4.1). For a
tabular structure the unit tests (`test_various_option_types_with_defaults`,
`button_group_test.py` lines 334-339) pin that the first column's values
become the options (a DataFrame with columns col1=["male","female"],
col2=["15","10"] yields ["male","female"]); the spec's parenthetical that
column names become options holds only when the column-name index itself is
passed, which reaches the normalizer as a plain sequence of the names. -/
def convert_anything_to_list {α : Type} : OptionsInput α → List α
  | OptionsInput.sequence items => items
  | OptionsInput.dataframe columns =>
    match columns with
    | [] => []
    | c :: _ => c.2
  | OptionsInput.scalar v => [v]

/-- Modelled from the spec: the shapes a caller may pass as the `default`
argument: absent (None), a single scalar value, or a sequence of values. -/
inductive DefaultValue (α : Type) where
  | missing
  | single (value : α)
  | many (values : List α)

/-- Modelled from the spec: the default argument as a list of default values
(an absent default contributes no values, a scalar contributes one). -/
def DefaultValue.toList {α : Type} : DefaultValue α → List α
  | DefaultValue.missing => []
  | DefaultValue.single v => [v]
  | DefaultValue.many vs => vs

/-- Modelled from the spec: the Selection Mode enum (spec §3): SELECT
(exactly zero-or-one) or MULTISELECT (zero-or-more). -/
inductive SelectionMode where
  | select
  | multiselect
deriving Repr, DecidableEq

/-- Modelled from the spec: the wire-level click mode of the emitted element
(`ButtonGroupProto.ClickMode`). -/
inductive ClickMode where
  | singleSelect
  | multiSelect
deriving Repr, DecidableEq

/-- Modelled from the spec: the style variant of the emitted element
(`ButtonGroupProto.Style`): plain button group or pill style (spec §3). -/
inductive BGStyle where
  | normal
  | pills
deriving Repr, DecidableEq

/-- Modelled from the spec: the click mode the builder emits for each
selection mode. -/
def SelectionMode.toClickMode : SelectionMode → ClickMode
  | SelectionMode.select => ClickMode.singleSelect
  | SelectionMode.multiselect => ClickMode.multiSelect

/-- Modelled from the spec: the Button-Group Element Spec the Element Builder
produces (spec §3): ordered options, encoded default positions, click mode,
disabled flag, owning form identity (empty if none) and style variant. -/
structure ButtonGroupProto where
  options : List BGOption
  default : List Nat
  click_mode : ClickMode
  disabled : Bool
  form_id : String
  style : BGStyle
deriving Repr, DecidableEq

/-- Modelled from the spec: the configuration error message for an
icons/options length mismatch (pinned verbatim by `test_icon_list_too_small`
and `test_options_list_too_small_when_icons_provided`). -/
def icons_mismatch_msg : String :=
  "The number of icons must match the number of options."

/-- Modelled from the spec: the configuration error message for a
multi-element default in single-select mode (pinned verbatim by
`test_default_for_single_select_must_be_single_value`). -/
def single_select_default_msg : String :=
  "The default argument to `st.button_group` must be a single value when `selection_mode='select'`."

/-- Modelled from the spec: icons/options parity validation (spec §4.5):
when an icons list is supplied its length must equal the option count
exactly, or the builder raises a configuration error naming the mismatch;
an absent icons list passes. -/
def _validate_icons {α : Type} (opts : List α) :
    Option (List String) → Except BGError Unit
  | Option.none => .ok ()
  | Option.some ics =>
    if ics.length = opts.length then .ok ()
    else .error (.streamlitAPIException icons_mismatch_msg)

/-- Modelled from the spec: conversion of the default values to their
canonical positions within the caller's option list (spec §4.3): each
default value's first position is looked up; a value not present in the
options raises the "option does not exist" domain validation error. -/
def check_and_convert_to_indices {α : Type} [DecidableEq α] (opts : List α)
    (default_values : List α) : Except BGError (List Nat) :=
  match default_values with
  | [] => .ok []
  | v :: rest =>
    match index_of opts v with
    | Option.some i =>
      match check_and_convert_to_indices opts rest with
      | .ok is => .ok (i :: is)
      | .error e => .error e
    | Option.none => .error (.streamlitAPIException option_does_not_exist_msg)

/-- Modelled from the spec: construction of the proto option list (spec
§4.1, §4.5): every raw value is converted to its display-string form via the
caller-supplied formatting function, and when an icons list is supplied the
icons are attached positionally. -/
def build_options {α : Type} (opts : List α) (format_func : α → String) :
    Option (List String) → List BGOption
  | Option.none => opts.map (fun o =>
      { content := format_func o, content_icon := "",
        selected_content_icon := "" })
  | Option.some ics => List.zipWith (fun o icon =>
      { content := format_func o, content_icon := icon,
        selected_content_icon := "" }) opts ics

/-- Modelled from the spec: `_internal_button_group`, the Element Builder of
`button_group.py` (missing from src; spec §4.5). Normalizes the options,
validates fail-fast — icons/options parity first, then the selection-mode /
default-count combination (a default of more than one element is rejected in
SELECT mode), then the defaults' membership in the options — and emits the
element spec with the encoded default positions. -/
def _internal_button_group {α : Type} [DecidableEq α]
    (options : OptionsInput α) (format_func : α → String)
    (default : DefaultValue α) (selection_mode : SelectionMode)
    (icons : Option (List String)) (disabled : Bool) (form_id : String)
    (style : BGStyle) : Except BGError ButtonGroupProto :=
  let indexable_options := convert_anything_to_list options
  let default_values := default.toList
  match _validate_icons indexable_options icons with
  | .error e => .error e
  | .ok _ =>
    if selection_mode = SelectionMode.select ∧ 1 < default_values.length then
      .error (.streamlitAPIException single_select_default_msg)
    else
      match check_and_convert_to_indices indexable_options default_values with
      | .error e => .error e
      | .ok default_indices =>
        .ok { options := build_options indexable_options format_func icons,
              default := default_indices,
              click_mode := selection_mode.toClickMode,
              disabled := disabled, form_id := form_id, style := style }

/-- Modelled from the spec: the configuration error message of the
fixed-vocabulary convenience call for a selector name outside the valid set
(pinned verbatim by `test_invalid_option_literal`). -/
def feedback_invalid_options_msg (options : String) : String :=
  "The options argument to st.feedback must be one of ['thumbs', 'faces', 'stars']. The argument passed was '"
    ++ options ++ "'."

/-- Modelled from the spec: `st.feedback`, the fixed-vocabulary convenience
call (spec §6, §4.5): accepts one of "thumbs", "faces", "stars" and emits a
single-select, normal-style element whose options come from
`get_mapped_options`; any other selector name raises a descriptive
configuration error enumerating the valid set. -/
def feedback (options : String) (disabled : Bool) (form_id : String) :
    Except BGError ButtonGroupProto :=
  if options = "thumbs" ∨ options = "faces" ∨ options = "stars" then
    let mapped := get_mapped_options options
    .ok { options := mapped.1, default := [],
          click_mode := ClickMode.singleSelect,
          disabled := disabled, form_id := form_id, style := BGStyle.normal }
  else
    .error (.streamlitAPIException (feedback_invalid_options_msg options))

section SerdeLemmas

/-- A value absent from a list has no position in it. -/
theorem index_of_eq_none_of_not_mem {α : Type} [DecidableEq α] {l : List α}
    {v : α} (h : v ∉ l) : index_of l v = Option.none := by
  induction l with
  | nil => rfl
  | cons x rest ih =>
    simp only [List.mem_cons, not_or] at h
    have hxv : ¬ x = v := fun he => h.1 he.symm
    simp [index_of, hxv, ih h.2]

/-- A value present in a list has a position in it. -/
theorem index_of_isSome_of_mem {α : Type} [DecidableEq α] {l : List α} {v : α}
    (h : v ∈ l) : ∃ i, index_of l v = Option.some i := by
  induction l with
  | nil => cases h
  | cons x rest ih =>
    by_cases hx : x = v
    · exact ⟨0, by simp [index_of, hx]⟩
    · rcases List.mem_cons.mp h with h1 | h2
      · exact absurd h1.symm hx
      · obtain ⟨i, hi⟩ := ih h2
        exact ⟨i + 1, by simp [index_of, hx, hi]⟩

/-- Any list of wire positions holding one beyond the mapping's bounds makes
the per-position lookup fail with a low-level IndexError at an out-of-range
position. -/
theorem lookup_indices_error_of_out_of_range (mapping : List Nat) :
    ∀ positions : List Nat, (∃ p ∈ positions, mapping.length ≤ p) →
      ∃ q, mapping.length ≤ q
        ∧ lookup_indices mapping positions = .error (.indexError q) := by
  intro positions
  induction positions with
  | nil => rintro ⟨p, hp, _⟩; exact absurd hp (List.not_mem_nil p)
  | cons p rest ih =>
    rintro ⟨r, hr, hge⟩
    by_cases hp : mapping.length ≤ p
    · have hnone : mapping[p]? = Option.none := List.getElem?_eq_none hp
      exact ⟨p, hp, by simp [lookup_indices, hnone]⟩
    · push_neg at hp
      have hv : mapping[p]? = Option.some mapping[p] :=
        List.getElem?_eq_getElem hp
      have hrest : ∃ r ∈ rest, mapping.length ≤ r := by
        rcases List.mem_cons.mp hr with h1 | h2
        · exact absurd (h1 ▸ hge) (Nat.not_le.mpr hp)
        · exact ⟨r, h2, hge⟩
      obtain ⟨q, hq, herr⟩ := ih hrest
      exact ⟨q, hq, by simp [lookup_indices, hv, herr]⟩

end SerdeLemmas

/-- C1: for every fixed-vocabulary category name in {"thumbs", "faces",
"stars"} and every semantic value `v` contained in that category's option
index mapping, deserializing the result of `FeedbackSerde.serialize v`
returns `v`: serialize/deserialize form a bijection over the valid domain of
one widget's fixed mapping. -/
theorem feedback_serde_roundtrip :
    ∀ category ∈ (["thumbs", "faces", "stars"] : List String),
      ∀ v ∈ (get_mapped_options category).2,
        ((FeedbackSerde.mk (get_mapped_options category).2).serialize
            (Option.some v)).bind
          (fun wire =>
            (FeedbackSerde.mk (get_mapped_options category).2).deserialize
              wire "")
          = .ok (Option.some v) := by
  intro category hcat
  fin_cases hcat <;> decide

/-- Witness for C1: the roundtrip at category "thumbs" and value 1. -/
theorem feedback_serde_roundtrip_witness :
    ((FeedbackSerde.mk (get_mapped_options "thumbs").2).serialize
        (Option.some 1)).bind
      (fun wire =>
        (FeedbackSerde.mk (get_mapped_options "thumbs").2).deserialize wire "")
      = .ok (Option.some 1) :=
  feedback_serde_roundtrip "thumbs" (by decide) 1 (by decide)

/-- C3: for the concrete FeedbackSerde constructed with the option index
mapping [5, 6, 7], serialize 6 returns the one-element wire list [1] and
deserialize [1] "" returns the semantic value 6. -/
theorem feedback_serde_concrete_example :
    (FeedbackSerde.mk [5, 6, 7]).serialize (Option.some 6) = .ok [1]
    ∧ (FeedbackSerde.mk [5, 6, 7]).deserialize [1] "" = .ok (Option.some 6) :=
  ⟨rfl, rfl⟩

/-- C4: for every wire list holding a position that exceeds the bounds of a
FeedbackSerde's option index mapping, deserialize fails with a low-level
indexing failure (IndexError) at an out-of-range position — never a domain
validation error — i.e. the out-of-range failure is not caught or
translated. -/
theorem feedback_serde_deserialize_out_of_range (mapping positions : List Nat)
    (widget_id : String) (h : ∃ p ∈ positions, mapping.length ≤ p) :
    ∃ q, mapping.length ≤ q
      ∧ (FeedbackSerde.mk mapping).deserialize positions widget_id
          = .error (.indexError q) := by
  obtain ⟨q, hq, herr⟩ := lookup_indices_error_of_out_of_range mapping positions h
  exact ⟨q, hq, by simp [FeedbackSerde.deserialize, herr]⟩

/-- Witness for C4: deserializing [3] with mapping [5, 6, 7] fails with an
IndexError at an out-of-range position. -/
theorem feedback_serde_deserialize_out_of_range_witness :
    ∃ q, 3 ≤ q ∧ (FeedbackSerde.mk [5, 6, 7]).deserialize [3] ""
      = .error (.indexError q) :=
  feedback_serde_deserialize_out_of_range [5, 6, 7] [3] "" (by decide)

/-- C5: for every semantic category value absent from a FeedbackSerde's
option index mapping, serialize fails with a domain validation error (a
StreamlitAPIException, the "option does not exist" kind), distinct from a
low-level indexing failure. -/
theorem feedback_serde_serialize_absent_value (mapping : List Nat) (v : Nat)
    (h : v ∉ mapping) :
    (FeedbackSerde.mk mapping).serialize (Option.some v)
      = .error (.streamlitAPIException option_does_not_exist_msg) := by
  simp [FeedbackSerde.serialize, index_of_eq_none_of_not_mem h]

/-- Witness for C5: serializing 8 against the mapping [5, 6, 7] fails with
the domain validation error. -/
theorem feedback_serde_serialize_absent_value_witness :
    (FeedbackSerde.mk [5, 6, 7]).serialize (Option.some 8)
      = .error (.streamlitAPIException option_does_not_exist_msg) :=
  feedback_serde_serialize_absent_value [5, 6, 7] 8 (by decide)

/-- C10: get_mapped_options "thumbs" returns exactly two options, displayed
thumbs-up first and thumbs-down second, while its option index mapping is
[1, 0] (the mapping reverses display order: the semantic category of the
displayed thumbs-up is 1 and of the displayed thumbs-down is 0); for "faces"
and "stars" the mapping is the identity on 0..4. -/
theorem get_mapped_options_fixed_vocabulary :
    (get_mapped_options "thumbs").1.length = 2
    ∧ (get_mapped_options "thumbs").1.map (fun o => o.content_icon)
        = [":material/thumb_up:", ":material/thumb_down:"]
    ∧ (get_mapped_options "thumbs").2 = [1, 0]
    ∧ (get_mapped_options "faces").1.length = 5
    ∧ (get_mapped_options "faces").2 = [0, 1, 2, 3, 4]
    ∧ (get_mapped_options "stars").1.length = 5
    ∧ (get_mapped_options "stars").2 = [0, 1, 2, 3, 4] :=
  ⟨rfl, rfl, rfl, rfl, rfl, rfl, rfl⟩

/-- C6: every string passed to st.feedback that is not one of "thumbs",
"faces", "stars" raises a descriptive configuration error whose message
enumerates the valid set; for the input "foo" the exact message is the one
pinned by `test_invalid_option_literal`. -/
theorem feedback_invalid_option_error :
    (∀ (s : String) (disabled : Bool) (form_id : String),
        s ≠ "thumbs" → s ≠ "faces" → s ≠ "stars" →
        feedback s disabled form_id
          = .error (.streamlitAPIException (feedback_invalid_options_msg s)))
    ∧ feedback "foo" false ""
        = .error (.streamlitAPIException
            "The options argument to st.feedback must be one of ['thumbs', 'faces', 'stars']. The argument passed was 'foo'.") := by
  constructor
  · intro s d fid h1 h2 h3
    simp [feedback, h1, h2, h3]
  · rfl

/-- Witness for C6: the descriptive error for the out-of-vocabulary selector
name "bar". -/
theorem feedback_invalid_option_error_witness :
    feedback "bar" false ""
      = .error (.streamlitAPIException (feedback_invalid_options_msg "bar")) :=
  feedback_invalid_option_error.1 "bar" false "" (by decide) (by decide)
    (by decide)

/-- Counterexample for C2: passing the multi-column table with columns
col1 = ["male", "female"] and col2 = ["15", "10"] directly as the options
(the input of `test_various_option_types_with_defaults`, lines 334-339), the
Option Normalizer produces the first column's values ["male", "female"], not
the column names ["col1", "col2"]. -/
theorem multi_column_options_counterexample :
    convert_anything_to_list
        (OptionsInput.dataframe
          [("col1", ["male", "female"]), ("col2", ["15", "10"])])
      = ["male", "female"]
    ∧ convert_anything_to_list
        (OptionsInput.dataframe
          [("col1", ["male", "female"]), ("col2", ["15", "10"])])
      ≠ ["col1", "col2"] :=
  ⟨rfl, by decide⟩

/-- C2 (amended): for every multi-column tabular structure passed directly as
the options, the Option Normalizer produces the first column's values as the
canonical option contents; the column names become the options exactly when
the table's column-name index (a sequence of the names) is what is passed. -/
theorem multi_column_options_first_column (name1 : String)
    (col1 : List String) (rest : List (String × List String)) :
    convert_anything_to_list (OptionsInput.dataframe ((name1, col1) :: rest))
        = col1
    ∧ ∀ names : List String,
        convert_anything_to_list (OptionsInput.sequence names) = names :=
  ⟨rfl, fun _ => rfl⟩

section BuilderLemmas

/-- Defaults that are all present in the options convert to positions without
error. -/
theorem check_and_convert_ok {α : Type} [DecidableEq α] (opts : List α) :
    ∀ defaults : List α, (∀ d ∈ defaults, d ∈ opts) →
      ∃ is, check_and_convert_to_indices opts defaults = .ok is := by
  intro defaults
  induction defaults with
  | nil => intro _; exact ⟨[], rfl⟩
  | cons v rest ih =>
    intro h
    obtain ⟨i, hi⟩ := index_of_isSome_of_mem (h v (List.mem_cons_self v rest))
    obtain ⟨is, his⟩ := ih (fun d hd => h d (List.mem_cons_of_mem v hd))
    exact ⟨i :: is, by simp [check_and_convert_to_indices, hi, his]⟩

/-- The Element Builder emits the element spec whenever all three
validations pass. -/
theorem internal_button_group_ok {α : Type} [DecidableEq α]
    (input : OptionsInput α) (fmt : α → String) (default : DefaultValue α)
    (mode : SelectionMode) (icons : Option (List String)) (d : Bool)
    (fid : String) (sty : BGStyle) (is : List Nat)
    (hicons : _validate_icons (convert_anything_to_list input) icons = .ok ())
    (hmode : ¬(mode = SelectionMode.select ∧ 1 < default.toList.length))
    (hcheck : check_and_convert_to_indices (convert_anything_to_list input)
        default.toList = .ok is) :
    _internal_button_group input fmt default mode icons d fid sty
      = .ok { options := build_options (convert_anything_to_list input) fmt icons,
              default := is, click_mode := mode.toClickMode,
              disabled := d, form_id := fid, style := sty } := by
  simp only [_internal_button_group, hicons, if_neg hmode, hcheck]

/-- With an icons list of matching length, the built proto options carry the
icons positionally and the formatted contents. -/
theorem build_options_some_maps {α : Type} (opts : List α)
    (fmt : α → String) :
    ∀ ics : List String, ics.length = opts.length →
      (build_options opts fmt (Option.some ics)).map
          (fun o => o.content_icon) = ics
      ∧ (build_options opts fmt (Option.some ics)).map (fun o => o.content)
          = opts.map fmt := by
  induction opts with
  | nil =>
    intro ics h
    have : ics = [] := List.eq_nil_of_length_eq_zero h
    subst this
    exact ⟨rfl, rfl⟩
  | cons o rest ih =>
    intro ics h
    cases ics with
    | nil => simp at h
    | cons i irest =>
      obtain ⟨h1, h2⟩ := ih irest (by simpa using h)
      constructor
      · simpa [build_options] using h1
      · simpa [build_options] using h2

end BuilderLemmas

/-- C7: every button-group call in selection mode "select" whose default
holds more than one element raises the configuration error with the fixed,
exact message pinned by `test_default_for_single_select_must_be_single_value`;
in selection mode "multiselect" every subset of the options — including the
empty one and an absent default — is accepted without error. -/
theorem button_group_default_validation :
    (∀ (opts defaults : List String) (fmt : String → String) (d : Bool)
        (fid : String) (sty : BGStyle), 1 < defaults.length →
        _internal_button_group (OptionsInput.sequence opts) fmt
            (DefaultValue.many defaults) SelectionMode.select Option.none
            d fid sty
          = .error (.streamlitAPIException single_select_default_msg))
    ∧ (∀ (opts defaults : List String) (fmt : String → String) (d : Bool)
        (fid : String) (sty : BGStyle), (∀ v ∈ defaults, v ∈ opts) →
        ∃ p, _internal_button_group (OptionsInput.sequence opts) fmt
            (DefaultValue.many defaults) SelectionMode.multiselect Option.none
            d fid sty
          = .ok p)
    ∧ (∀ (opts : List String) (fmt : String → String) (d : Bool)
        (fid : String) (sty : BGStyle),
        ∃ p, _internal_button_group (OptionsInput.sequence opts) fmt
            DefaultValue.missing SelectionMode.multiselect Option.none
            d fid sty
          = .ok p) := by
  refine ⟨?_, ?_, ?_⟩
  · intro opts defaults fmt d fid sty h
    simp [_internal_button_group, _validate_icons, DefaultValue.toList,
      convert_anything_to_list, h]
  · intro opts defaults fmt d fid sty h
    obtain ⟨is, his⟩ := check_and_convert_ok opts defaults h
    exact ⟨_, internal_button_group_ok (OptionsInput.sequence opts) fmt
      (DefaultValue.many defaults) SelectionMode.multiselect Option.none
      d fid sty is rfl (by simp) his⟩
  · intro opts fmt d fid sty
    exact ⟨_, internal_button_group_ok (OptionsInput.sequence opts) fmt
      DefaultValue.missing SelectionMode.multiselect Option.none
      d fid sty [] rfl (by simp [DefaultValue.toList]) rfl⟩

/-- Witness for C7: the two-element default ["Coffee", "Tea"] in select mode
raises the exact configuration error, and the same default is accepted in
multiselect mode. -/
theorem button_group_default_validation_witness :
    (_internal_button_group (OptionsInput.sequence ["Coffee", "Tea", "Water"])
        id (DefaultValue.many ["Coffee", "Tea"]) SelectionMode.select
        Option.none false "" BGStyle.normal
      = .error (.streamlitAPIException single_select_default_msg))
    ∧ ∃ p, _internal_button_group
        (OptionsInput.sequence ["Coffee", "Tea", "Water"]) id
        (DefaultValue.many ["Coffee", "Tea"]) SelectionMode.multiselect
        Option.none false "" BGStyle.normal
      = .ok p :=
  ⟨button_group_default_validation.1 ["Coffee", "Tea", "Water"]
      ["Coffee", "Tea"] id false "" BGStyle.normal (by decide),
   button_group_default_validation.2.1 ["Coffee", "Tea", "Water"]
      ["Coffee", "Tea"] id false "" BGStyle.normal (by decide)⟩

/-- C8: whenever an icons list is supplied whose length differs from the
number of options in either direction, the call raises the configuration
error with the message pinned by `test_icon_list_too_small`; when the lengths
are equal the icons are attached positionally to the options without
error. -/
theorem button_group_icons_validation :
    (∀ (opts ics : List String) (fmt : String → String)
        (mode : SelectionMode) (d : Bool) (fid : String) (sty : BGStyle),
        ics.length ≠ opts.length →
        _internal_button_group (OptionsInput.sequence opts) fmt
            DefaultValue.missing mode (Option.some ics) d fid sty
          = .error (.streamlitAPIException icons_mismatch_msg))
    ∧ (∀ (opts ics : List String) (fmt : String → String)
        (mode : SelectionMode) (d : Bool) (fid : String) (sty : BGStyle),
        ics.length = opts.length →
        ∃ p, _internal_button_group (OptionsInput.sequence opts) fmt
            DefaultValue.missing mode (Option.some ics) d fid sty
          = .ok p
          ∧ p.options.map (fun o => o.content_icon) = ics
          ∧ p.options.map (fun o => o.content) = opts.map fmt) := by
  constructor
  · intro opts ics fmt mode d fid sty h
    simp [_internal_button_group, _validate_icons, convert_anything_to_list, h]
  · intro opts ics fmt mode d fid sty h
    have hicons : _validate_icons
        (convert_anything_to_list (OptionsInput.sequence opts))
        (Option.some ics) = .ok () := by
      simp [_validate_icons, convert_anything_to_list, h]
    refine ⟨_, internal_button_group_ok (OptionsInput.sequence opts) fmt
      DefaultValue.missing mode (Option.some ics) d fid sty [] hicons
      (by simp [DefaultValue.toList]) rfl, ?_, ?_⟩
    · exact (build_options_some_maps opts fmt ics h).1
    · exact (build_options_some_maps opts fmt ics h).2

/-- Witness for C8: one icon for two options raises the exact error; two
icons for two options attach positionally. -/
theorem button_group_icons_validation_witness :
    (_internal_button_group (OptionsInput.sequence ["Coffee", "Tea"]) id
        DefaultValue.missing SelectionMode.select (Option.some ["🍵"])
        false "" BGStyle.normal
      = .error (.streamlitAPIException icons_mismatch_msg))
    ∧ ∃ p, _internal_button_group (OptionsInput.sequence ["Coffee", "Tea"]) id
        DefaultValue.missing SelectionMode.select (Option.some ["☕", "🍵"])
        false "" BGStyle.normal
      = .ok p
      ∧ p.options.map (fun o => o.content_icon) = ["☕", "🍵"]
      ∧ p.options.map (fun o => o.content) = ["Coffee", "Tea"].map id :=
  ⟨button_group_icons_validation.1 ["Coffee", "Tea"] ["🍵"] id
      SelectionMode.select false "" BGStyle.normal (by decide),
   button_group_icons_validation.2 ["Coffee", "Tea"] ["☕", "🍵"] id
      SelectionMode.select false "" BGStyle.normal (by decide)⟩

/-- C9: every empty options input of any supported shape, with no default
supplied, makes the button-group call succeed, and the emitted element spec
has an empty option list and an empty encoded default. -/
theorem button_group_empty_options (input : OptionsInput String)
    (fmt : String → String) (mode : SelectionMode) (d : Bool) (fid : String)
    (sty : BGStyle) (h : convert_anything_to_list input = []) :
    _internal_button_group input fmt DefaultValue.missing mode Option.none
        d fid sty
      = .ok { options := [], default := [], click_mode := mode.toClickMode,
              disabled := d, form_id := fid, style := sty } := by
  have hok := internal_button_group_ok input fmt DefaultValue.missing mode
    Option.none d fid sty [] rfl (by simp [DefaultValue.toList]) rfl
  rw [hok]
  simp [build_options, h]

/-- Witness for C9: the empty sequence of options yields the empty element
spec without error. -/
theorem button_group_empty_options_witness :
    _internal_button_group (OptionsInput.sequence ([] : List String)) id
        DefaultValue.missing SelectionMode.select Option.none false ""
        BGStyle.normal
      = .ok { options := [], default := [],
              click_mode := ClickMode.singleSelect, disabled := false,
              form_id := "", style := BGStyle.normal } :=
  button_group_empty_options (OptionsInput.sequence []) id
    SelectionMode.select false "" BGStyle.normal rfl
